import Mathlib

/-!
Shallow embedding of the DoD (Difference of DEMs) pipeline of
`src/DoD_tool.py` (function `DoDfin`, lines 24-119).

The script is a straight-line sequence of ArcGIS Spatial Analyst map-algebra
calls.  The embedding models:

* a raster grid as a rectangular extent on a common cell lattice (all grids
  of a run share the cell size and alignment; `cellArea` is passed where the
  zonal AREA statistic needs it) together with a cell-value function where
  `none` is the NoData sentinel;
* the ArcGIS local operators used by the script, with their documented
  semantics: arithmetic and relational operators and Boolean Or propagate
  NoData (a NoData operand yields NoData), binary operators compute over the
  intersection of the input extents and fail when the extents do not
  overlap, `Con(cond, 1, 0)` yields NoData where the conditional raster is
  NoData, `Reclassify` with remap `[[0, "NODATA"], [1, 1]]` and the default
  missing-values behaviour maps 0 to NoData, 1 to 1, keeps other values,
  and propagates NoData;
* `ZonalStatisticsAsTable(..., ignore_nodata="DATA", statistics_type="ALL")`
  as one record per distinct zone value having at least one cell with data
  in the value raster (records ordered by ascending zone value, as the tool
  writes them), carrying the zone value, COUNT, AREA = COUNT x cell area,
  and MEDIAN computed over the data cells of the zone;
* `AddField` + `CalculateField("!AREA! * !MEDIAN!")` as a per-record map
  filling the Volume field.

Cell values are rationals (exact arithmetic stands in for IEEE doubles; all
inputs exercised here are exactly representable).
-/

namespace DoD

/-- A raster grid: a rectangular extent on a common cell lattice (origin
cell `(x0, y0)`, `ncols` by `nrows` cells) and a value function; `none` is
the NoData sentinel. -/
structure Grid where
  x0 : ℤ
  y0 : ℤ
  ncols : ℕ
  nrows : ℕ
  val : ℤ → ℤ → Option ℚ

/-- Whether cell `(x, y)` lies inside the extent of `g`. -/
def Grid.inExtentB (g : Grid) (x y : ℤ) : Bool :=
  decide (g.x0 ≤ x ∧ x < g.x0 + (g.ncols : ℤ) ∧ g.y0 ≤ y ∧ y < g.y0 + (g.nrows : ℤ))

/-- The value of `g` at cell `(x, y)`: the stored value inside the extent,
NoData outside. -/
def Grid.cell (g : Grid) (x y : ℤ) : Option ℚ :=
  if g.inExtentB x y then g.val x y else none

/-- The cells of the extent of `g`, enumerated column-major. -/
def Grid.cellsList (g : Grid) : List (ℤ × ℤ) :=
  (List.range g.ncols).flatMap fun i =>
    (List.range g.nrows).map fun j => (g.x0 + (i : ℤ), g.y0 + (j : ℤ))

/-- A local (cell-wise) unary map-algebra operator: same extent as the
input, NoData cells handled by `f` acting on `Option` via `bind` (so NoData
propagates unless `f` itself is applied, which only happens on data). -/
def mapGrid (f : ℚ → Option ℚ) (g : Grid) : Grid :=
  Grid.mk g.x0 g.y0 g.ncols g.nrows (fun x y => (g.cell x y).bind f)

/-- A local (cell-wise) binary map-algebra operator.  Per the Spatial
Analyst environment defaults, the output extent is the intersection of the
two input extents, and a cell where either operand is NoData is NoData. -/
def rasterBinOp (f : ℚ → ℚ → Option ℚ) (a b : Grid) : Grid :=
  Grid.mk (max a.x0 b.x0) (max a.y0 b.y0)
    ((min (a.x0 + (a.ncols : ℤ)) (b.x0 + (b.ncols : ℤ)) - max a.x0 b.x0).toNat)
    ((min (a.y0 + (a.nrows : ℤ)) (b.y0 + (b.nrows : ℤ)) - max a.y0 b.y0).toNat)
    (fun x y => (a.cell x y).bind fun u => (b.cell x y).bind fun v => f u v)

/-- Raster subtraction `Raster(dem_later) - Raster(dem_earlier)`
(line 59 of `src/DoD_tool.py`). -/
def rasterSub (a b : Grid) : Grid :=
  rasterBinOp (fun u v => some (u - v)) a b

/-- Relational operator `dod > c`: 1 where greater, 0 where not, NoData
where the input is NoData (line 66). -/
def rasterGT (a : Grid) (c : ℚ) : Grid :=
  mapGrid (fun u => some (if c < u then 1 else 0)) a

/-- Relational operator `dod < c`: 1 where less, 0 where not, NoData where
the input is NoData (line 66). -/
def rasterLT (a : Grid) (c : ℚ) : Grid :=
  mapGrid (fun u => some (if u < c then 1 else 0)) a

/-- Boolean Or `|`: 1 where either operand is nonzero, 0 where both are
zero, NoData where either operand is NoData (line 66). -/
def rasterOr (a b : Grid) : Grid :=
  rasterBinOp (fun u v => some (if u ≠ 0 ∨ v ≠ 0 then 1 else 0)) a b

/-- Raster multiplication `dod_binary * dod` (line 83). -/
def rasterMul (a b : Grid) : Grid :=
  rasterBinOp (fun u v => some (u * v)) a b

/-- `Reclassify(dod_mask, "Value", RemapValue([[0, "NODATA"], [1, 1]]))`
(lines 72-76): 0 becomes NoData, 1 stays 1, a value outside the remap is
kept (default missing-values behaviour), NoData stays NoData. -/
def reclassify01 (a : Grid) : Grid :=
  mapGrid (fun u => if u = 0 then none else if u = 1 then some 1 else some u) a

/-- `Con(dod_filtered < 0, 1, 0)` (line 89): 1 where the input is negative,
0 where it is non-negative, and NoData where the conditional raster is
NoData (which is exactly where `dod_filtered` is NoData). -/
def conLt0 (a : Grid) : Grid :=
  mapGrid (fun u => some (if u < 0 then 1 else 0)) a

/-- Insert a rational into a sorted list, keeping it sorted. -/
def insertSorted (a : ℚ) : List ℚ → List ℚ
  | [] => [a]
  | y :: ys => if a ≤ y then a :: y :: ys else y :: insertSorted a ys

/-- Sort a list of rationals in non-decreasing order. -/
def sortQ (l : List ℚ) : List ℚ :=
  l.foldr insertSorted []

/-- The median of a list of values: the middle element of the sorted list
for an odd count, the mean of the two middle elements for an even count. -/
def medianQ (l : List ℚ) : ℚ :=
  let s := sortQ l
  if l.length % 2 = 1 then s.getD (l.length / 2) 0
  else (s.getD (l.length / 2 - 1) 0 + s.getD (l.length / 2) 0) / 2

/-- One record of the zonal-statistics table (the fields the pipeline
consumes: zone value, COUNT, AREA, MEDIAN, and the appended Volume field,
`none` until `CalculateField` runs). -/
structure ZonalRecord where
  zone : ℚ
  count : ℕ
  area : ℚ
  median : ℚ
  volume : Option ℚ
deriving DecidableEq

/-- The (zone value, data value) pairs of the zonal-statistics input: one
pair per cell of the zone raster's extent at which both the zone raster and
the value raster carry data. -/
def zonePairs (zones values : Grid) : List (ℚ × ℚ) :=
  zones.cellsList.filterMap fun c =>
    (zones.cell c.1 c.2).bind fun z => (values.cell c.1 c.2).map fun v => (z, v)

/-- The data values of the value raster falling in zone `z`. -/
def zoneValues (zones values : Grid) (z : ℚ) : List ℚ :=
  (zonePairs zones values).filterMap fun p => if p.1 = z then some p.2 else none

/-- `arcpy.ia.ZonalStatisticsAsTable(erosion, "Value", dod_filtered, ...,
ignore_nodata="DATA", statistics_type="ALL")` (lines 96-103): one record
per distinct zone value with at least one data cell, ordered by ascending
zone value; COUNT counts the data cells of the zone, AREA is COUNT times
the cell area, MEDIAN is the median of the zone's data values. -/
def zonalStats (zones values : Grid) (cellArea : ℚ) : List ZonalRecord :=
  (sortQ (((zonePairs zones values).map Prod.fst).dedup)).map fun z =>
    ZonalRecord.mk z (zoneValues zones values z).length
      (((zoneValues zones values z).length : ℚ) * cellArea)
      (medianQ (zoneValues zones values z)) none

/-- `AddField(..., "Volume", "DOUBLE")` followed by
`CalculateField(..., "Volume", "!AREA! * !MEDIAN!")` (lines 108-119):
fill the Volume field of every record with AREA times MEDIAN. -/
def calculateVolume (t : List ZonalRecord) : List ZonalRecord :=
  t.map fun r => ZonalRecord.mk r.zone r.count r.area r.median (some (r.area * r.median))

/-- Step 1 (line 59): the raw DoD, `Raster(dem_later) - Raster(dem_earlier)`. -/
def dodOf (dem_later dem_earlier : Grid) : Grid :=
  rasterSub dem_later dem_earlier

/-- The detection-threshold mask of a difference grid `d` for threshold `m`:
`(d > m) | (d < -m)` (line 66, with `d` the raw DoD and `m` the mLoD). -/
def thresholdMask (d : Grid) (m : ℚ) : Grid :=
  rasterOr (rasterGT d m) (rasterLT d (-m))

/-- Step 2 (lines 66-67): the threshold mask of the pipeline,
`(dod > float(mLoD)) | (dod < -float(mLoD))`. -/
def maskOf (dem_later dem_earlier : Grid) (mLoD : ℚ) : Grid :=
  thresholdMask (dodOf dem_later dem_earlier) mLoD

/-- Step 3 (lines 72-77): the binary reclassification of the mask. -/
def binaryOf (dem_later dem_earlier : Grid) (mLoD : ℚ) : Grid :=
  reclassify01 (maskOf dem_later dem_earlier mLoD)

/-- Step 4 (lines 83-84): the filtered DoD, `dod_binary * dod`. -/
def filteredOf (dem_later dem_earlier : Grid) (mLoD : ℚ) : Grid :=
  rasterMul (binaryOf dem_later dem_earlier mLoD) (dodOf dem_later dem_earlier)

/-- Step 5 (lines 89-90): the erosion raster, `Con(dod_filtered < 0, 1, 0)`. -/
def erosionOf (dem_later dem_earlier : Grid) (mLoD : ℚ) : Grid :=
  conLt0 (filteredOf dem_later dem_earlier mLoD)

/-- Step 6 (lines 96-103): the zonal-statistics table over the erosion
raster, with the filtered DoD as value raster. -/
def statsOf (dem_later dem_earlier : Grid) (mLoD cellArea : ℚ) : List ZonalRecord :=
  zonalStats (erosionOf dem_later dem_earlier mLoD)
    (filteredOf dem_later dem_earlier mLoD) cellArea

/-- Step 7 (lines 108-119): the final table with the Volume field filled. -/
def statsVolOf (dem_later dem_earlier : Grid) (mLoD cellArea : ℚ) : List ZonalRecord :=
  calculateVolume (statsOf dem_later dem_earlier mLoD cellArea)

/-- The failure the modelled map-algebra fragment can raise: the Spatial
Analyst tools stop with an error when the extents of the two input rasters
do not overlap (the single failure condition reachable in the modelled
fragment; licensing and backing-store failures are outside the model). -/
inductive PipelineError where
  | noOverlap : PipelineError
deriving DecidableEq

/-- Whether the extents of the two input grids overlap, i.e. whether the
intersection extent of the raw DoD is non-empty. -/
def overlapsB (dem_later dem_earlier : Grid) : Bool :=
  decide (0 < (dodOf dem_later dem_earlier).ncols ∧ 0 < (dodOf dem_later dem_earlier).nrows)

/-- The six artifacts the run of `DoDfin` saves, named after the output
parameters of `DoDfin` (lines 28-33). -/
structure Artifacts where
  dod_raw : Grid
  dod_threshold_mask : Grid
  dod_reclass : Grid
  dod_thresholded : Grid
  erosion_mask : Grid
  erosion_stats : List ZonalRecord

/-- The whole pipeline `DoDfin` (lines 24-119): the six artifacts of a run,
or the failure of the first map-algebra call when the input extents do not
overlap.  The script performs no parameter or compatibility validation of
its own; every step is one of the modelled ArcGIS calls. -/
def DoDfin (dem_later dem_earlier : Grid) (mLoD cellArea : ℚ) :
    Except PipelineError Artifacts :=
  if overlapsB dem_later dem_earlier then
    Except.ok (Artifacts.mk
      (dodOf dem_later dem_earlier)
      (maskOf dem_later dem_earlier mLoD)
      (binaryOf dem_later dem_earlier mLoD)
      (filteredOf dem_later dem_earlier mLoD)
      (erosionOf dem_later dem_earlier mLoD)
      (statsVolOf dem_later dem_earlier mLoD cellArea))
  else Except.error PipelineError.noOverlap

/-- Whether a run of `DoDfin` succeeds. -/
def DoDfinOk (dem_later dem_earlier : Grid) (mLoD cellArea : ℚ) : Bool :=
  match DoDfin dem_later dem_earlier mLoD cellArea with
  | Except.ok _ => true
  | Except.error _ => false

/-- A saved artifact: a raster grid or a statistics table. -/
inductive Artifact where
  | raster : Grid → Artifact
  | table : List ZonalRecord → Artifact

/-- The backing store the script saves into (a geodatabase keyed by output
name, with `arcpy.env.overwriteOutput = True`, lines 49 and 60-119). -/
abbrev Store := String → Option Artifact

/-- Save a list of named artifacts into the store in order, overwriting any
previous entry of the same name. -/
def saveAll (ps : List (String × Artifact)) (s : Store) : Store :=
  ps.foldl (fun st p => Function.update st p.1 (some p.2)) s

/-- The six output names of a run (the `dod_raw` ... `erosion_stats`
parameters of `DoDfin`). -/
structure OutNames where
  dod_raw : String
  dod_threshold_mask : String
  dod_reclass : String
  dod_thresholded : String
  erosion_mask : String
  erosion_stats : String

/-- The output names, in the order the script saves them. -/
def OutNames.list (nm : OutNames) : List String :=
  [nm.dod_raw, nm.dod_threshold_mask, nm.dod_reclass, nm.dod_thresholded,
   nm.erosion_mask, nm.erosion_stats]

/-- The named artifacts of a run, in save order. -/
def outPairs (dem_later dem_earlier : Grid) (mLoD cellArea : ℚ) (nm : OutNames) :
    List (String × Artifact) :=
  [(nm.dod_raw, Artifact.raster (dodOf dem_later dem_earlier)),
   (nm.dod_threshold_mask, Artifact.raster (maskOf dem_later dem_earlier mLoD)),
   (nm.dod_reclass, Artifact.raster (binaryOf dem_later dem_earlier mLoD)),
   (nm.dod_thresholded, Artifact.raster (filteredOf dem_later dem_earlier mLoD)),
   (nm.erosion_mask, Artifact.raster (erosionOf dem_later dem_earlier mLoD)),
   (nm.erosion_stats, Artifact.table (statsVolOf dem_later dem_earlier mLoD cellArea))]

/-- `DoDfin` as a transformation of the backing store: the run computes the
six artifacts from its inputs alone and saves them under the given output
names (lines 60, 67, 77, 84, 90, 100 of `src/DoD_tool.py`). -/
def DoDfinRun (s : Store) (dem_later dem_earlier : Grid) (mLoD cellArea : ℚ)
    (nm : OutNames) : Except PipelineError Store :=
  if overlapsB dem_later dem_earlier then
    Except.ok (saveAll (outPairs dem_later dem_earlier mLoD cellArea nm) s)
  else Except.error PipelineError.noOverlap

/-- The cell values of the 3x3 end-to-end example difference surface
(spec section 8, scenario B): the later DEM minus an all-zero earlier DEM
gives differences 0.5, -0.5, 0.1 / 0.3, -0.3, 0 / 0.05, -0.05, 0.25. -/
def diffB : ℤ → ℤ → Option ℚ := fun x y =>
  if x = 0 ∧ y = 0 then some (1/2)
  else if x = 0 ∧ y = 1 then some (-1/2)
  else if x = 0 ∧ y = 2 then some (1/10)
  else if x = 1 ∧ y = 0 then some (3/10)
  else if x = 1 ∧ y = 1 then some (-3/10)
  else if x = 1 ∧ y = 2 then some 0
  else if x = 2 ∧ y = 0 then some (1/20)
  else if x = 2 ∧ y = 1 then some (-1/20)
  else if x = 2 ∧ y = 2 then some (1/4)
  else none

/-- The later DEM of the 3x3 example. -/
def gLaterB : Grid := Grid.mk 0 0 3 3 diffB

/-- The earlier DEM of the 3x3 example: all zero. -/
def gEarlierB : Grid := Grid.mk 0 0 3 3 (fun _ _ => some 0)

/-- A 1x1 grid whose cell holds 1. -/
def gOne : Grid := Grid.mk 0 0 1 1 (fun _ _ => some 1)

/-- A 1x1 grid whose cell holds 0. -/
def gZero : Grid := Grid.mk 0 0 1 1 (fun _ _ => some 0)

/-- A 1x1 grid whose cell is NoData. -/
def gNoData : Grid := Grid.mk 0 0 1 1 (fun _ _ => none)

/-- A 2x2 grid whose cells hold 3 (its dimensions differ from `gOne`). -/
def gThree2 : Grid := Grid.mk 0 0 2 2 (fun _ _ => some 3)

/-- Whether a grid carries the value 1 at some cell of its extent. -/
def hasZone1 (g : Grid) : Bool :=
  g.cellsList.any fun c => decide (g.cell c.1 c.2 = some 1)

/-- A unary local operator reads the input cell and applies its function;
in particular an input NoData cell gives an output NoData cell. -/
theorem mapGrid_cell (f : ℚ → Option ℚ) (g : Grid) (x y : ℤ) :
    (mapGrid f g).cell x y = (g.cell x y).bind f := by
  by_cases h : g.inExtentB x y = true
  · show (if g.inExtentB x y = true then (g.cell x y).bind f else none)
        = (g.cell x y).bind f
    rw [if_pos h]
  · show (if g.inExtentB x y = true then (g.cell x y).bind f else none)
        = (g.cell x y).bind f
    rw [if_neg h]
    have hg : g.cell x y = none := by
      unfold Grid.cell
      rw [if_neg h]
    rw [hg]
    rfl

/-- A binary local operator reads the two input cells and applies its
function; a cell where either input is NoData (or outside either extent)
is NoData in the output. -/
theorem rasterBinOp_cell (f : ℚ → ℚ → Option ℚ) (a b : Grid) (x y : ℤ) :
    (rasterBinOp f a b).cell x y
      = (a.cell x y).bind fun u => (b.cell x y).bind fun v => f u v := by
  have hiff : ((rasterBinOp f a b).inExtentB x y = true)
      ↔ (a.inExtentB x y = true ∧ b.inExtentB x y = true) := by
    simp only [Grid.inExtentB, rasterBinOp, decide_eq_true_eq]
    omega
  have hshape : (rasterBinOp f a b).cell x y
      = (if (rasterBinOp f a b).inExtentB x y = true
          then (a.cell x y).bind fun u => (b.cell x y).bind fun v => f u v
          else none) := rfl
  rw [hshape]
  by_cases ha : a.inExtentB x y = true
  · by_cases hb : b.inExtentB x y = true
    · have h : (rasterBinOp f a b).inExtentB x y = true := hiff.mpr ⟨ha, hb⟩
      rw [if_pos h]
    · have h : ¬((rasterBinOp f a b).inExtentB x y = true) :=
        fun hh => hb (hiff.mp hh).2
      have hb' : b.cell x y = none := by
        unfold Grid.cell
        rw [if_neg hb]
      rw [if_neg h]
      simp only [hb', Option.none_bind]
      cases a.cell x y <;> rfl
  · have h : ¬((rasterBinOp f a b).inExtentB x y = true) :=
      fun hh => ha (hiff.mp hh).1
    have ha' : a.cell x y = none := by
      unfold Grid.cell
      rw [if_neg ha]
    rw [if_neg h]
    rw [ha']
    rfl

/-- The cell-level reading of the threshold mask: at a data cell of `d` the
mask holds 1 when the value strictly exceeds `m` or is strictly below `-m`
and 0 otherwise; at a NoData cell of `d` the mask is NoData. -/
theorem thresholdMask_cell (d : Grid) (m : ℚ) (x y : ℤ) :
    (thresholdMask d m).cell x y
      = (d.cell x y).map fun v => if m < v ∨ v < -m then (1 : ℚ) else 0 := by
  unfold thresholdMask rasterOr rasterGT rasterLT
  rw [rasterBinOp_cell, mapGrid_cell, mapGrid_cell]
  cases d.cell x y with
  | none => rfl
  | some v =>
    simp only [Option.some_bind, Option.map_some']
    by_cases h1 : m < v
    · simp [h1]
    · by_cases h2 : v < -m
      · simp [h1, h2]
      · simp [h1, h2]

/-- The cell-level reading of the erosion raster: at a data cell of the
input the output holds 1 when the value is negative and 0 otherwise; at a
NoData cell of the input the output is NoData. -/
theorem conLt0_cell (g : Grid) (x y : ℤ) :
    (conLt0 g).cell x y
      = (g.cell x y).map fun u => if u < 0 then (1 : ℚ) else 0 := by
  unfold conLt0
  rw [mapGrid_cell]
  cases g.cell x y <;> rfl

/-- Sorted insertion preserves the members of a list. -/
theorem mem_insertSorted (x a : ℚ) (l : List ℚ) :
    x ∈ insertSorted a l ↔ x = a ∨ x ∈ l := by
  induction l with
  | nil => simp [insertSorted]
  | cons y ys ih =>
    unfold insertSorted
    by_cases h : a ≤ y
    · simp [h]
    · simp only [h, if_false, List.mem_cons, ih]
      tauto

/-- Sorting preserves the members of a list. -/
theorem mem_sortQ (x : ℚ) (l : List ℚ) : x ∈ sortQ l ↔ x ∈ l := by
  induction l with
  | nil => simp [sortQ]
  | cons y ys ih =>
    show x ∈ insertSorted y (sortQ ys) ↔ _
    rw [mem_insertSorted]
    simp [ih]

/-- The zone value of every record of the zonal-statistics table occurs as
the zone of some (zone, value) data pair. -/
theorem zone_mem_of_mem_zonalStats (zones values : Grid) (a : ℚ) (r : ZonalRecord)
    (h : r ∈ zonalStats zones values a) :
    r.zone ∈ (zonePairs zones values).map Prod.fst := by
  rcases List.mem_map.mp h with ⟨z, hz, rfl⟩
  exact List.mem_dedup.mp ((mem_sortQ z _).mp hz)

/-- Every zone value occurring in the (zone, value) pairs is the zone
raster's data value at some cell of the zone raster's extent. -/
theorem zone_of_mem_pairs (zones values : Grid) (z : ℚ)
    (h : z ∈ (zonePairs zones values).map Prod.fst) :
    ∃ c, c ∈ zones.cellsList ∧ zones.cell c.1 c.2 = some z := by
  rcases List.mem_map.mp h with ⟨p, hp, rfl⟩
  rcases List.mem_filterMap.mp hp with ⟨c, hc, hfc⟩
  refine ⟨c, hc, ?_⟩
  cases hz : zones.cell c.1 c.2 with
  | none => rw [hz] at hfc; cases hfc
  | some z0 =>
    rw [hz] at hfc
    cases hv : values.cell c.1 c.2 with
    | none => rw [hv] at hfc; cases hfc
    | some v0 =>
      rw [hv] at hfc
      simp only [Option.some_bind, Option.map_some', Option.some_inj] at hfc
      rw [← hfc]

/-- Every record of the pipeline's statistics table draws its zone value
from a data cell of the erosion raster, and that value is 0 or 1. -/
theorem statsOf_zone_spec (dem_later dem_earlier : Grid) (mLoD cellArea : ℚ)
    (r : ZonalRecord) (h : r ∈ statsOf dem_later dem_earlier mLoD cellArea) :
    ∃ c, c ∈ (erosionOf dem_later dem_earlier mLoD).cellsList ∧
      (erosionOf dem_later dem_earlier mLoD).cell c.1 c.2 = some r.zone ∧
      (r.zone = 0 ∨ r.zone = 1) := by
  have h1 := zone_mem_of_mem_zonalStats _ _ _ _ h
  rcases zone_of_mem_pairs _ _ _ h1 with ⟨c, hc, hcell⟩
  refine ⟨c, hc, hcell, ?_⟩
  have hcon : (erosionOf dem_later dem_earlier mLoD).cell c.1 c.2
      = ((filteredOf dem_later dem_earlier mLoD).cell c.1 c.2).map
          fun u => if u < 0 then (1 : ℚ) else 0 :=
    conLt0_cell _ _ _
  rw [hcon] at hcell
  cases hf : (filteredOf dem_later dem_earlier mLoD).cell c.1 c.2 with
  | none => rw [hf] at hcell; cases hcell
  | some u =>
    rw [hf] at hcell
    simp only [Option.map_some', Option.some_inj] at hcell
    by_cases hu : u < 0
    · right
      rw [← hcell, if_pos hu]
    · left
      rw [← hcell, if_neg hu]

/-- A store lookup after a batch of saves at a key none of the saves wrote
reads the original store. -/
theorem saveAll_not_mem (ps : List (String × Artifact)) (s : Store) (n : String)
    (h : n ∉ ps.map Prod.fst) : saveAll ps s n = s n := by
  induction ps generalizing s with
  | nil => rfl
  | cons p ps ih =>
    simp only [List.map_cons, List.mem_cons, not_or] at h
    show saveAll ps (Function.update s p.1 (some p.2)) n = s n
    rw [ih _ h.2, Function.update_noteq h.1]

/-- A store lookup after a batch of saves at a key one of the saves wrote
does not depend on the original store. -/
theorem saveAll_eq_of_mem (ps : List (String × Artifact)) (s t : Store) (n : String)
    (h : n ∈ ps.map Prod.fst) : saveAll ps s n = saveAll ps t n := by
  induction ps generalizing s t with
  | nil => cases h
  | cons p ps ih =>
    by_cases hn : n ∈ ps.map Prod.fst
    · exact ih _ _ hn
    · have hp : n = p.1 := by
        simp only [List.map_cons, List.mem_cons] at h
        tauto
      show saveAll ps (Function.update s p.1 (some p.2)) n
          = saveAll ps (Function.update t p.1 (some p.2)) n
      rw [saveAll_not_mem _ _ _ hn, saveAll_not_mem _ _ _ hn, hp,
        Function.update_same, Function.update_same]

/-- A run of `DoDfin` succeeds exactly when the input extents overlap. -/
theorem DoDfinOk_eq_overlapsB (dem_later dem_earlier : Grid) (mLoD cellArea : ℚ) :
    DoDfinOk dem_later dem_earlier mLoD cellArea = overlapsB dem_later dem_earlier := by
  unfold DoDfinOk DoDfin
  cases h : overlapsB dem_later dem_earlier <;> simp [h]

/-- Claim C1, counterexample.  With identical 1x1 input DEMs and mLoD 0.2
the single cell lies inside the erosion mask's extent yet is NoData there
(not 0): `Con(dod_filtered < 0, 1, 0)` outputs NoData where the filtered
grid is NoData, so the erosion mask does not carry a value at every cell of
the grid extent. -/
theorem C1_counterexample :
    (DoDfin gOne gOne (2/10) 1).toOption.map
        (fun A => (A.erosion_mask.inExtentB 0 0, A.erosion_mask.cell 0 0))
      = some (true, none) := by with_unfolding_all decide

/-- Claim C1, amended.  At every cell, the erosion mask equals 1 where the
filtered difference is negative, 0 where it carries a non-negative value,
and NoData where the filtered difference is NoData: a no-data input cell
yields NoData in the erosion mask, not 0. -/
theorem C1_erosion_mask_semantics (dem_later dem_earlier : Grid)
    (mLoD cellArea : ℚ) (x y : ℤ) :
    (DoDfin dem_later dem_earlier mLoD cellArea).map
        (fun A => A.erosion_mask.cell x y)
      = (DoDfin dem_later dem_earlier mLoD cellArea).map
          (fun A => (A.dod_thresholded.cell x y).map
            fun u => if u < 0 then (1 : ℚ) else 0) := by
  unfold DoDfin
  cases h : overlapsB dem_later dem_earlier
  · rw [if_neg (by simp [h])]
    rfl
  · rw [if_pos (by simp [h])]
    exact congrArg Except.ok (conLt0_cell _ x y)

/-- Claim C2.  Every record of the final erosion statistics table carries
Volume equal to the record's area times the record's median (exactly, in
the rational model; exact equality is within any relative tolerance), and
this holds vacuously for an empty table. -/
theorem C2_volume_identity (dem_later dem_earlier : Grid) (mLoD cellArea : ℚ)
    (r : ZonalRecord) (h : r ∈ statsVolOf dem_later dem_earlier mLoD cellArea) :
    r.volume = some (r.area * r.median) := by
  unfold statsVolOf calculateVolume at h
  rcases List.mem_map.mp h with ⟨r0, _, rfl⟩
  rfl

/-- Claim C2, witness: the zone-1 record of the 3x3 example run has
Volume = area x median = 2 x (-2/5). -/
theorem C2_volume_identity_witness :
    (ZonalRecord.mk 1 2 2 (-2/5) (some (-4/5))
        ∈ statsVolOf gLaterB gEarlierB (2/10) 1) ∧
      (ZonalRecord.mk 1 2 2 (-2/5) (some (-4/5))).volume
        = some ((ZonalRecord.mk 1 2 2 (-2/5) (some (-4/5))).area
            * (ZonalRecord.mk 1 2 2 (-2/5) (some (-4/5))).median) :=
  ⟨by with_unfolding_all decide, C2_volume_identity gLaterB gEarlierB (2/10) 1
    (ZonalRecord.mk 1 2 2 (-2/5) (some (-4/5))) (by with_unfolding_all decide)⟩

/-- Claim C3, counterexample.  With a 1x1 later DEM whose cell is NoData,
the difference grid's cell is NoData and the threshold mask is NoData
there, not false: the relational operators and Boolean Or propagate
NoData, so a no-data cell of the difference grid is not 0 in the mask. -/
theorem C3_counterexample :
    (DoDfin gNoData gOne (2/10) 1).toOption.map
        (fun A => (A.dod_threshold_mask.inExtentB 0 0, A.dod_threshold_mask.cell 0 0))
      = some (true, none) := by with_unfolding_all decide

/-- Claim C3, amended.  At every cell, the threshold mask holds 1 exactly
where the difference grid carries a value strictly greater than mLoD or
strictly less than -mLoD, holds 0 where it carries any other value (in
particular where the absolute difference equals mLoD), and is NoData where
the difference grid is NoData (never false at a no-data cell). -/
theorem C3_threshold_mask_semantics (dem_later dem_earlier : Grid)
    (mLoD cellArea : ℚ) (x y : ℤ) :
    (DoDfin dem_later dem_earlier mLoD cellArea).map
        (fun A => A.dod_threshold_mask.cell x y)
      = (DoDfin dem_later dem_earlier mLoD cellArea).map
          (fun A => (A.dod_raw.cell x y).map
            fun d => if mLoD < d ∨ d < -mLoD then (1 : ℚ) else 0) := by
  unfold DoDfin
  cases h : overlapsB dem_later dem_earlier
  · rw [if_neg (by simp [h])]
    rfl
  · rw [if_pos (by simp [h])]
    exact congrArg Except.ok (thresholdMask_cell _ mLoD x y)

/-- Claim C6.  No-data propagation: a cell at which either DEM is NoData is
NoData in the raw difference, and a cell at which either the binary
classification or the difference grid is NoData is NoData in the filtered
difference (never a numeric default, never a multiplicative zero). -/
theorem C6_nodata_propagation (dem_later dem_earlier : Grid) (mLoD : ℚ) (x y : ℤ) :
    ((dem_later.cell x y = none ∨ dem_earlier.cell x y = none) →
      (dodOf dem_later dem_earlier).cell x y = none) ∧
    (((binaryOf dem_later dem_earlier mLoD).cell x y = none ∨
        (dodOf dem_later dem_earlier).cell x y = none) →
      (filteredOf dem_later dem_earlier mLoD).cell x y = none) := by
  constructor
  · intro h
    unfold dodOf rasterSub
    rw [rasterBinOp_cell]
    rcases h with h | h
    · rw [h]
      rfl
    · simp only [h, Option.none_bind]
      cases dem_later.cell x y <;> rfl
  · intro h
    unfold filteredOf rasterMul
    rw [rasterBinOp_cell]
    rcases h with h | h
    · rw [h]
      rfl
    · simp only [h, Option.none_bind]
      cases (binaryOf dem_later dem_earlier mLoD).cell x y <;> rfl

/-- Claim C6, witness: with a NoData later DEM, the raw difference and the
filtered difference are NoData at the cell. -/
theorem C6_nodata_propagation_witness :
    (dodOf gNoData gOne).cell 0 0 = none ∧
      (filteredOf gNoData gOne (2/10)).cell 0 0 = none :=
  ⟨(C6_nodata_propagation gNoData gOne (2/10) 0 0).1 (Or.inl (by with_unfolding_all decide)),
   (C6_nodata_propagation gNoData gOne (2/10) 0 0).2 (Or.inr (by with_unfolding_all decide))⟩

/-- Claim C9.  Threshold monotonicity: for thresholds 0 ≤ m1 ≤ m2, every
cell that is true (1) in the threshold mask at m2 is true in the threshold
mask at m1; increasing the mLoD never turns a false cell true. -/
theorem C9_threshold_monotone (d : Grid) (m1 m2 : ℚ) (x y : ℤ)
    (h0 : 0 ≤ m1) (h12 : m1 ≤ m2)
    (ht : (thresholdMask d m2).cell x y = some 1) :
    (thresholdMask d m1).cell x y = some 1 := by
  rw [thresholdMask_cell] at ht ⊢
  cases hd : d.cell x y with
  | none => rw [hd] at ht; cases ht
  | some v =>
    rw [hd] at ht
    simp only [Option.map_some', Option.some_inj] at ht ⊢
    by_cases hc : m2 < v ∨ v < -m2
    · rcases hc with hc | hc
      · exact if_pos (Or.inl (lt_of_le_of_lt h12 hc))
      · exact if_pos (Or.inr (lt_of_lt_of_le hc (neg_le_neg h12)))
    · rw [if_neg hc] at ht
      exact absurd ht (by norm_num)

/-- Claim C9, witness: on the 3x3 example difference surface, the cell
holding 0.5 is true in the mask at m2 = 2/5 and hence at m1 = 1/5. -/
theorem C9_threshold_monotone_witness :
    ((0 : ℚ) ≤ 1/5 ∧ (1/5 : ℚ) ≤ 2/5 ∧
        (thresholdMask gLaterB (2/5)).cell 0 0 = some 1) ∧
      (thresholdMask gLaterB (1/5)).cell 0 0 = some 1 :=
  ⟨⟨by norm_num, by norm_num, by with_unfolding_all decide⟩,
   C9_threshold_monotone gLaterB (1/5) (2/5) 0 0 (by norm_num) (by norm_num)
     (by with_unfolding_all decide)⟩

/-- Claim C4, counterexample.  With mLoD = -1 on the 3x3 example the
pipeline does not fail: the run succeeds, the threshold mask is 1 even at
the cell whose difference is 0, and the statistics table (2 records) is
produced — no `InvalidParameterError`, no halt. -/
theorem C4_counterexample :
    DoDfinOk gLaterB gEarlierB (-1) 1 = true ∧
      (DoDfin gLaterB gEarlierB (-1) 1).toOption.map
          (fun A => (A.dod_threshold_mask.cell 1 2, A.erosion_stats.length))
        = some (some 1, 2) := by with_unfolding_all decide

/-- Claim C4, amended.  The script performs no mLoD validation: a run with
a negative mLoD succeeds whenever the input extents overlap (exactly as
for any other mLoD), and its threshold mask is 1 at every data cell of the
difference grid, so every cell with data is marked significant and all
later artifacts are produced. -/
theorem C4_no_mLoD_validation (dem_later dem_earlier : Grid) (mLoD cellArea : ℚ)
    (x y : ℤ) (d : ℚ) (hm : mLoD < 0)
    (hd : (dodOf dem_later dem_earlier).cell x y = some d) :
    DoDfinOk dem_later dem_earlier mLoD cellArea = overlapsB dem_later dem_earlier ∧
      (maskOf dem_later dem_earlier mLoD).cell x y = some 1 := by
  refine ⟨DoDfinOk_eq_overlapsB _ _ _ _, ?_⟩
  unfold maskOf
  rw [thresholdMask_cell, hd]
  simp only [Option.map_some', Option.some_inj]
  by_cases h : mLoD < d
  · exact if_pos (Or.inl h)
  · have hlt : d < -mLoD := by
      have := not_lt.mp h
      linarith
    exact if_pos (Or.inr hlt)

/-- Claim C4, witness: mLoD = -1 on the 3x3 example at the cell with
difference 0.5. -/
theorem C4_no_mLoD_validation_witness :
    ((-1 : ℚ) < 0 ∧ (dodOf gLaterB gEarlierB).cell 0 0 = some (1/2)) ∧
      (DoDfinOk gLaterB gEarlierB (-1) 1 = overlapsB gLaterB gEarlierB ∧
        (maskOf gLaterB gEarlierB (-1)).cell 0 0 = some 1) :=
  ⟨⟨by norm_num, by with_unfolding_all decide⟩,
   C4_no_mLoD_validation gLaterB gEarlierB (-1) 1 0 0 (1/2) (by norm_num)
     (by with_unfolding_all decide)⟩

/-- Claim C5, counterexample.  A 2x2 later DEM against a 1x1 earlier DEM
(differing row/column dimensions, hence incompatible grids) raises no
`IncompatibleGridError`: the run succeeds, the raw difference is silently
computed over the 1x1 intersection of the extents (cell value 3 - 1 = 2),
and artifacts are produced. -/
theorem C5_counterexample :
    (gThree2.ncols ≠ gOne.ncols ∧ gThree2.nrows ≠ gOne.nrows) ∧
      DoDfinOk gThree2 gOne (2/10) 1 = true ∧
      (DoDfin gThree2 gOne (2/10) 1).toOption.map
          (fun A => (A.dod_raw.ncols, A.dod_raw.nrows, A.dod_raw.cell 0 0,
            A.erosion_stats.length))
        = some (1, 1, some 2, 1) := by with_unfolding_all decide

/-- Claim C5, amended.  The difference stage performs no compatibility
check: a run succeeds exactly when the two extents overlap, and the raw
difference is computed over the intersection of the two input extents
(grids being on a common cell lattice in this model), so differing
dimensions are silently resolved rather than rejected. -/
theorem C5_no_compatibility_check (dem_later dem_earlier : Grid) (mLoD cellArea : ℚ) :
    DoDfinOk dem_later dem_earlier mLoD cellArea = overlapsB dem_later dem_earlier ∧
      (dodOf dem_later dem_earlier).x0 = max dem_later.x0 dem_earlier.x0 ∧
      (dodOf dem_later dem_earlier).y0 = max dem_later.y0 dem_earlier.y0 ∧
      (dodOf dem_later dem_earlier).ncols
        = (min (dem_later.x0 + (dem_later.ncols : ℤ))
              (dem_earlier.x0 + (dem_earlier.ncols : ℤ))
            - max dem_later.x0 dem_earlier.x0).toNat ∧
      (dodOf dem_later dem_earlier).nrows
        = (min (dem_later.y0 + (dem_later.nrows : ℤ))
              (dem_earlier.y0 + (dem_earlier.nrows : ℤ))
            - max dem_later.y0 dem_earlier.y0).toNat :=
  ⟨DoDfinOk_eq_overlapsB dem_later dem_earlier mLoD cellArea, rfl, rfl, rfl, rfl⟩

/-- Claim C7, counterexample.  On the 3x3 example run the final statistics
table holds two records, for zone values 0 and 1: the call passes the whole
erosion raster as zone data, so zone 0 (significant accretion) gets its own
record and the table is not restricted to zone 1. -/
theorem C7_counterexample :
    (DoDfin gLaterB gEarlierB (2/10) 1).toOption.map
        (fun A => A.erosion_stats.map fun r => r.zone) = some [0, 1] := by
  with_unfolding_all decide

/-- Claim C7, amended.  The zonal call passes the full erosion raster as
zone data (ignoring no-data and computing all statistics, area and median
among them): the table gets one record per distinct zone value present
with data, so every record's zone value is 0 or 1 — it is not restricted to
zone 1. -/
theorem C7_zone_values (dem_later dem_earlier : Grid) (mLoD cellArea : ℚ)
    (r : ZonalRecord) (h : r ∈ statsOf dem_later dem_earlier mLoD cellArea) :
    r.zone = 0 ∨ r.zone = 1 := by
  rcases statsOf_zone_spec dem_later dem_earlier mLoD cellArea r h with ⟨c, _, _, hz⟩
  exact hz

/-- Claim C7, witness: the zone-0 record of the 3x3 example run. -/
theorem C7_zone_values_witness :
    (ZonalRecord.mk 0 3 3 (3/10) none ∈ statsOf gLaterB gEarlierB (2/10) 1) ∧
      ((ZonalRecord.mk 0 3 3 (3/10) none).zone = 0 ∨
        (ZonalRecord.mk 0 3 3 (3/10) none).zone = 1) :=
  ⟨by with_unfolding_all decide,
   C7_zone_values gLaterB gEarlierB (2/10) 1 (ZonalRecord.mk 0 3 3 (3/10) none)
     (by with_unfolding_all decide)⟩

/-- Claim C8, counterexample.  A run whose only change is accretion (+1 on
a 1x1 grid, mLoD 0.2): the erosion mask holds no cell equal to 1, yet the
zonal aggregation does not yield an empty table — it yields one record, for
zone 0. -/
theorem C8_counterexample :
    hasZone1 (erosionOf gOne gZero (2/10)) = false ∧
      (DoDfin gOne gZero (2/10) 1).toOption.map (fun A => A.erosion_stats.length)
        = some 1 := by with_unfolding_all decide

/-- Claim C8, amended.  When the erosion mask holds no cell equal to 1 the
run still completes successfully (success depends only on extent overlap):
the possibly-empty table propagates through Volume computation without
fault, but it need not be empty — every record it does hold is a zone-0
record (significant accretion), and no zone-1 record exists. -/
theorem C8_no_erosion_zone (dem_later dem_earlier : Grid) (mLoD cellArea : ℚ)
    (r : ZonalRecord)
    (h1 : hasZone1 (erosionOf dem_later dem_earlier mLoD) = false)
    (h2 : r ∈ statsVolOf dem_later dem_earlier mLoD cellArea) :
    r.zone = 0 ∧ DoDfinOk dem_later dem_earlier mLoD cellArea
        = overlapsB dem_later dem_earlier := by
  refine ⟨?_, DoDfinOk_eq_overlapsB _ _ _ _⟩
  unfold statsVolOf calculateVolume at h2
  rcases List.mem_map.mp h2 with ⟨r0, hr0, rfl⟩
  show r0.zone = 0
  rcases statsOf_zone_spec _ _ _ _ _ hr0 with ⟨c, hcmem, hcell, hz⟩
  rcases hz with hz | hz
  · exact hz
  · exfalso
    rw [hz] at hcell
    have htrue : hasZone1 (erosionOf dem_later dem_earlier mLoD) = true := by
      unfold hasZone1
      rw [List.any_eq_true]
      exact ⟨c, hcmem, decide_eq_true hcell⟩
    rw [h1] at htrue
    cases htrue

/-- Claim C8, witness: the accretion-only 1x1 run. -/
theorem C8_no_erosion_zone_witness :
    (hasZone1 (erosionOf gOne gZero (2/10)) = false ∧
        ZonalRecord.mk 0 1 1 1 (some 1) ∈ statsVolOf gOne gZero (2/10) 1) ∧
      ((ZonalRecord.mk 0 1 1 1 (some 1)).zone = 0 ∧
        DoDfinOk gOne gZero (2/10) 1 = overlapsB gOne gZero) :=
  ⟨⟨by with_unfolding_all decide, by with_unfolding_all decide⟩,
   C8_no_erosion_zone gOne gZero (2/10) 1 (ZonalRecord.mk 0 1 1 1 (some 1))
     (by with_unfolding_all decide) (by with_unfolding_all decide)⟩

/-- The images of a list of keys all written by a batch of saves do not
depend on the store the saves started from. -/
theorem map_saveAll_eq (ps : List (String × Artifact)) (s t : Store)
    (l : List String) (hl : ∀ n ∈ l, n ∈ ps.map Prod.fst) :
    l.map (saveAll ps s) = l.map (saveAll ps t) := by
  induction l with
  | nil => rfl
  | cons n ns ih =>
    simp only [List.map_cons]
    rw [saveAll_eq_of_mem _ _ _ _ (hl n (List.mem_cons_self n ns)),
      ih fun n2 hn2 => hl n2 (List.mem_cons_of_mem _ hn2)]

/-- Claim C10.  The pipeline is deterministic: the run is a pure function
of the two input grids and the mLoD (and of the cell geometry), so two runs
from any two prior store states produce the same success-or-failure outcome
and identical contents under all six output names — no randomness, clock,
or hidden state influences the artifacts. -/
theorem C10_deterministic (s1 s2 : Store) (dem_later dem_earlier : Grid)
    (mLoD cellArea : ℚ) (nm : OutNames) :
    (DoDfinRun s1 dem_later dem_earlier mLoD cellArea nm).map
        (fun σ => nm.list.map σ)
      = (DoDfinRun s2 dem_later dem_earlier mLoD cellArea nm).map
          (fun σ => nm.list.map σ) := by
  unfold DoDfinRun
  cases h : overlapsB dem_later dem_earlier
  · rw [if_neg (by simp [h]), if_neg (by simp [h])]
  · rw [if_pos (by simp [h]), if_pos (by simp [h])]
    refine congrArg Except.ok ?_
    refine map_saveAll_eq _ s1 s2 _ ?_
    intro n hn
    exact hn

end DoD
